import Mathlib

/-!
Shallow embedding of the personalized news-ranking core of the VNLS_press
backend (files `backend/services/recommendation_service.py` and
`backend/services/news_service.py`), together with theorems settling the
frozen claims about it.

Modelling conventions:
* Python dicts carrying article fields become a Lean structure `Article`;
  the transient scoring fields (`recommendation_score`, `final_score`,
  `personalization_factors`, `trending_score`) are `Option`-valued since
  the corresponding keys may be absent from the dict.
* Publication timestamps are modelled by the article's age in hours at
  scoring time (`publishedAt : Option ℚ`); `none` stands for a string that
  `datetime.fromisoformat` fails to parse.
* Preference maps (Python dicts `str -> float`) become association lists
  `List (String × ℚ)` read through `dictGet`, mirroring `dict.get`.
* Collaborator calls that may raise become `Except Unit` parameters;
  `.error ()` is the collaborator raising an exception.
* Python floats are modelled by `ℚ`; every constant in the source is an
  exact decimal, so no rounding is lost.
-/

/-- The component breakdown attached to each article by
`_apply_personalization` under the key `personalization_factors`. -/
structure Factors where
  base_score : ℚ
  category_boost : ℚ
  recency_boost : ℚ
  source_boost : ℚ
  diversity_penalty : ℚ
deriving Repr, DecidableEq

/-- An article record: the stable content fields plus the transient scoring
fields the ranking pass may attach. -/
structure Article where
  id : String
  title : String
  content : String
  category : String
  source : String
  /-- Age in hours at scoring time; `none` = unparseable timestamp. -/
  publishedAt : Option ℚ
  /-- Base relevance score from the model collaborator, if present. -/
  recommendation_score : Option ℚ
  final_score : Option ℚ
  personalization_factors : Option Factors
  trending_score : Option ℚ
deriving Repr, DecidableEq

/-- Python's `d.get(k, dflt)` on a string-keyed map of rationals. -/
def dictGet (d : List (String × ℚ)) (k : String) (dflt : ℚ) : ℚ :=
  match d.find? (fun p => p.1 == k) with
  | some p => p.2
  | none => dflt

/-- `self.category_weights`: the fixed base-weight table
(recommendation_service.py lines 20-28). -/
def category_weights : List (String × ℚ) :=
  [("technology", 1), ("business", 1), ("health", 1), ("science", 1),
   ("general", 0.8), ("sports", 0.7), ("entertainment", 0.6)]

/-- The cold-start default category-affinity profile returned by
`_get_user_category_preferences` for users with no counts (lines 152-160). -/
def default_preferences : List (String × ℚ) :=
  [("technology", 0.8), ("business", 0.7), ("general", 0.6),
   ("health", 0.5), ("science", 0.5)]

/-- `_get_user_category_preferences` (lines 145-173): the storage
collaborator's category→count result is `.error ()` when the call raises,
`.ok counts` otherwise.  Empty counts give the cold-start default profile;
a raised exception is caught and yields the empty map. -/
def get_user_category_preferences
    (category_counts : Except Unit (List (String × ℕ))) : List (String × ℚ) :=
  match category_counts with
  | .error _ => []
  | .ok counts =>
    if counts = [] then default_preferences
    else
      let total_interactions : ℚ := ((counts.map (·.2)).sum : ℕ)
      counts.map (fun p => (p.1, min ((p.2 : ℚ) / total_interactions * 2) 1))

/-- `_calculate_category_boost` (lines 207-212). -/
def calculate_category_boost (article_category : String)
    (category_preferences : List (String × ℚ)) : ℚ :=
  dictGet category_weights article_category 0.5 *
    dictGet category_preferences article_category 0.5

/-- `_calculate_recency_boost` (lines 214-234), as a function of the
article's age in hours; `none` = the timestamp failed to parse. -/
def calculate_recency_boost (hours_old : Option ℚ) : ℚ :=
  match hours_old with
  | none => 0.5
  | some h =>
    if h ≤ 1 then 1
    else if h ≤ 6 then 0.8
    else if h ≤ 24 then 0.6
    else if h ≤ 72 then 0.4
    else 0.2

/-- `_calculate_source_boost` (lines 236-238). -/
def calculate_source_boost (article_source : String)
    (source_preferences : List (String × ℚ)) : ℚ :=
  dictGet source_preferences article_source 0.5

/-- `_calculate_diversity_penalty` (lines 240-260). -/
def calculate_diversity_penalty (article : Article)
    (existing_recommendations : List Article) : ℚ :=
  if existing_recommendations = [] then 1
  else
    let similar_category_count :=
      (existing_recommendations.filter
        (fun rec' => rec'.category = article.category)).length
    let similar_source_count :=
      (existing_recommendations.filter
        (fun rec' => rec'.source = article.source)).length
    let category_penalty := max 0.5 (1 - (similar_category_count : ℚ) * 0.1)
    let source_penalty := max 0.5 (1 - (similar_source_count : ℚ) * 0.15)
    min category_penalty source_penalty

/-- One iteration of the loop body of `_apply_personalization`
(lines 99-141): score `article` against the already-accepted list and
attach the final score and the component breakdown. -/
def score_article (category_preferences source_preferences : List (String × ℚ))
    (accepted : List Article) (article : Article) : Article :=
  let base_score := article.recommendation_score.getD 0.5
  let category_boost :=
    calculate_category_boost article.category category_preferences
  let recency_boost := calculate_recency_boost article.publishedAt
  let source_boost := calculate_source_boost article.source source_preferences
  let diversity_penalty := calculate_diversity_penalty article accepted
  let final_score :=
    base_score * 0.6 + category_boost * 0.2 + recency_boost * 0.1 +
      source_boost * 0.05 + diversity_penalty * 0.05
  { article with
    final_score := some final_score
    personalization_factors := some
      ⟨base_score, category_boost, recency_boost, source_boost,
       diversity_penalty⟩ }

/-- The loop of `_apply_personalization`, carrying the accepted list. -/
def apply_personalization_go
    (category_preferences source_preferences : List (String × ℚ))
    (accepted : List Article) : List Article → List Article
  | [] => accepted
  | article :: rest =>
    apply_personalization_go category_preferences source_preferences
      (accepted ++
        [score_article category_preferences source_preferences accepted article])
      rest

/-- `_apply_personalization` (lines 85-143): a single pass over the model's
output in its original order, appending each scored article immediately. -/
def apply_personalization
    (category_preferences source_preferences : List (String × ℚ))
    (ml_recommendations : List Article) : List Article :=
  apply_personalization_go category_preferences source_preferences []
    ml_recommendations

/-- The sort key comparison of line 66-69: descending by
`x.get('final_score', 0)`; `List.mergeSort` with this `le` is the stable
descending sort Python's `list.sort(..., reverse=True)` performs. -/
def scoreLe (x y : Article) : Bool :=
  decide (y.final_score.getD 0 ≤ x.final_score.getD 0)

/-- `get_personalized_recommendations` (lines 30-83).  `ml_result` is the
model collaborator's outcome; any raised exception lands in the
`except` handler, which returns `articles[:top_k]`. -/
def get_personalized_recommendations (articles : List Article) (top_k : ℕ)
    (ml_result : Except Unit (List Article))
    (category_counts : Except Unit (List (String × ℕ)))
    (source_preferences : List (String × ℚ)) : List Article :=
  if articles = [] then []
  else
    match ml_result with
    | .error _ => articles.take top_k
    | .ok ml_recommendations =>
      let category_preferences := get_user_category_preferences category_counts
      let personalized :=
        apply_personalization category_preferences source_preferences
          ml_recommendations
      (personalized.mergeSort scoreLe).take top_k

/-- `_get_source_credibility` (lines 296-311). -/
def get_source_credibility (source : String) : ℚ :=
  dictGet
    [("Reuters", 1), ("BBC", 1), ("Associated Press", 1), ("Bloomberg", 0.9),
     ("CNN", 0.8), ("TechCrunch", 0.8), ("Wired", 0.8), ("Nature", 1),
     ("Science Daily", 0.9)] source 0.6

/-- The trending sort key comparison (line 288): descending by
`x.get('trending_score', 0)`. -/
def trendingLe (x y : Article) : Bool :=
  decide (y.trending_score.getD 0 ≤ x.trending_score.getD 0)

/-- `get_trending_recommendations` (lines 262-294): a raised exception in
either collaborator call lands in the `except` handler, which returns the
empty list. -/
def get_trending_recommendations
    (recent_result : Except Unit (List Article)) (limit : ℕ)
    (ml_result : Except Unit (List Article)) : List Article :=
  match recent_result with
  | .error _ => []
  | .ok recent_articles =>
    if recent_articles = [] then []
    else
      match ml_result with
      | .error _ => []
      | .ok ml_recommendations =>
        let scored := ml_recommendations.map (fun article =>
          { article with
            trending_score := some
              (article.recommendation_score.getD 0.5 * 0.6 +
                calculate_recency_boost article.publishedAt * 0.3 +
                get_source_credibility article.source * 0.1) })
        (scored.mergeSort trendingLe).take limit

/-- `get_category_recommendations` (lines 313-337): `user` is the optional
`user_id`; with a user it delegates to the personalized ranker (whose own
handler absorbs model failures), without one a model failure lands in the
outer `except` handler, which returns the empty list. -/
def get_category_recommendations
    (category_result : Except Unit (List Article)) (limit : ℕ)
    (user : Option String) (ml_result : Except Unit (List Article))
    (category_counts : Except Unit (List (String × ℕ)))
    (source_preferences : List (String × ℚ)) : List Article :=
  match category_result with
  | .error _ => []
  | .ok category_articles =>
    if category_articles = [] then []
    else
      match user with
      | some _ =>
        get_personalized_recommendations category_articles limit ml_result
          category_counts source_preferences
      | none =>
        match ml_result with
        | .error _ => []
        | .ok ml_recommendations => ml_recommendations

/-- Title normalization of `_remove_duplicates`
(news_service.py line 264): `article["title"].lower().strip()`. -/
def normalize_title (t : String) : String := t.toLower.trim

/-- The loop of `_remove_duplicates`, carrying the `seen_titles` set as a
list read only through membership. -/
def remove_duplicates_go (seen : List String) : List Article → List Article
  | [] => []
  | article :: rest =>
    let title_lower := normalize_title article.title
    if title_lower ∈ seen then remove_duplicates_go seen rest
    else article :: remove_duplicates_go (title_lower :: seen) rest

/-- `_remove_duplicates` (news_service.py lines 258-270). -/
def remove_duplicates (articles : List Article) : List Article :=
  remove_duplicates_go [] articles

/-! ## Structural lemmas about the personalization pass -/

/-- A sample article used to instantiate witnesses. -/
def sampleTech : Article :=
  { id := "t1", title := "Alpha", content := "c", category := "technology",
    source := "Reuters", publishedAt := none, recommendation_score := none,
    final_score := none, personalization_factors := none,
    trending_score := none }

/-- A second sample article sharing `sampleTech`'s normalized title. -/
def sampleTechDup : Article :=
  { sampleTech with id := "t2", title := " ALPHA ", source := "BBC" }

lemma apply_personalization_go_length
    (cp sp : List (String × ℚ)) (l : List Article) :
    ∀ acc, (apply_personalization_go cp sp acc l).length =
      acc.length + l.length := by
  induction l with
  | nil => intro acc; simp [apply_personalization_go]
  | cons a rest ih =>
    intro acc
    rw [apply_personalization_go, ih]
    simp
    omega

lemma apply_personalization_go_take
    (cp sp : List (String × ℚ)) (l : List Article) :
    ∀ acc, (apply_personalization_go cp sp acc l).take acc.length = acc := by
  induction l with
  | nil => intro acc; simp [apply_personalization_go]
  | cons a rest ih =>
    intro acc
    rw [apply_personalization_go]
    have h := ih (acc ++ [score_article cp sp acc a])
    have h2 : (apply_personalization_go cp sp
        (acc ++ [score_article cp sp acc a]) rest).take acc.length =
        ((apply_personalization_go cp sp
          (acc ++ [score_article cp sp acc a]) rest).take
            (acc ++ [score_article cp sp acc a]).length).take acc.length := by
      rw [List.take_take]
      congr 1
      simp
    rw [h2, h]
    simp

lemma apply_personalization_go_getElem?
    (cp sp : List (String × ℚ)) (l : List Article) :
    ∀ acc (i : ℕ) (hi : i < l.length),
      (apply_personalization_go cp sp acc l)[acc.length + i]? =
        some (score_article cp sp
          ((apply_personalization_go cp sp acc l).take (acc.length + i))
          (l.get ⟨i, hi⟩)) := by
  induction l with
  | nil => intro acc i h; simp at h
  | cons a rest ih =>
    intro acc i h
    cases i with
    | zero =>
      have htail := apply_personalization_go_take cp sp rest
        (acc ++ [score_article cp sp acc a])
      have hhead : (apply_personalization_go cp sp acc (a :: rest)).take
          acc.length = acc := apply_personalization_go_take cp sp (a :: rest) acc
      rw [apply_personalization_go] at hhead ⊢
      have hel : (apply_personalization_go cp sp
          (acc ++ [score_article cp sp acc a]) rest)[acc.length]? =
          some (score_article cp sp acc a) := by
        have hlt : acc.length < (acc ++ [score_article cp sp acc a]).length := by
          simp
        rw [show (apply_personalization_go cp sp
              (acc ++ [score_article cp sp acc a]) rest)[acc.length]? =
            ((apply_personalization_go cp sp
              (acc ++ [score_article cp sp acc a]) rest).take
                (acc ++ [score_article cp sp acc a]).length)[acc.length]? by
          rw [List.getElem?_take, if_pos hlt]]
        rw [htail]
        simp
      simpa [hhead] using hel
    | succ j =>
      have hj : j < rest.length := by simpa using Nat.lt_of_succ_lt_succ h
      have := ih (acc ++ [score_article cp sp acc a]) j hj
      rw [apply_personalization_go]
      have harith : acc.length + (j + 1) =
          (acc ++ [score_article cp sp acc a]).length + j := by
        simp
        omega
      rw [harith]
      simpa using this

lemma apply_personalization_length (cp sp : List (String × ℚ))
    (ml : List Article) :
    (apply_personalization cp sp ml).length = ml.length := by
  simpa [apply_personalization] using
    apply_personalization_go_length cp sp ml []

lemma apply_personalization_getElem? (cp sp : List (String × ℚ))
    (ml : List Article) (i : ℕ) (h : i < ml.length) :
    (apply_personalization cp sp ml)[i]? =
      some (score_article cp sp ((apply_personalization cp sp ml).take i)
        (ml.get ⟨i, h⟩)) := by
  simpa [apply_personalization] using
    apply_personalization_go_getElem? cp sp ml [] i h

/-! ## Bounds on the boosters -/

lemma diversity_penalty_ge_half (article : Article)
    (existing : List Article) :
    (0.5 : ℚ) ≤ calculate_diversity_penalty article existing := by
  by_cases he : existing = []
  · simp [calculate_diversity_penalty, he]
    norm_num
  · simp only [calculate_diversity_penalty, if_neg he]
    exact le_min (le_max_left _ _) (le_max_left _ _)

lemma diversity_penalty_le_one (article : Article)
    (existing : List Article) :
    calculate_diversity_penalty article existing ≤ 1 := by
  by_cases he : existing = []
  · simp [calculate_diversity_penalty, he]
  · simp only [calculate_diversity_penalty, if_neg he]
    refine le_trans (min_le_left _ _) (max_le (by norm_num) ?_)
    have : (0 : ℚ) ≤ ((existing.filter
        (fun r => r.category = article.category)).length : ℚ) * 0.1 := by
      positivity
    linarith

/-- Claim C1: every article processed by the scoring engine gets
`final_score = base*0.6 + categoryBoost*0.2 + recencyBoost*0.1 +
sourceBoost*0.05 + diversityPenalty*0.05`, where a missing base relevance
score is replaced by the neutral prior `0.5`, and no article is rejected:
the pass emits exactly one scored entry per input article. -/
theorem C1_scoring_engine_formula (cp sp : List (String × ℚ))
    (ml : List Article) (i : ℕ) (h : i < ml.length) :
    (apply_personalization cp sp ml).length = ml.length ∧
    ((apply_personalization cp sp ml)[i]?.bind Article.final_score) =
      some ((ml.get ⟨i, h⟩).recommendation_score.getD 0.5 * 0.6 +
        calculate_category_boost (ml.get ⟨i, h⟩).category cp * 0.2 +
        calculate_recency_boost (ml.get ⟨i, h⟩).publishedAt * 0.1 +
        calculate_source_boost (ml.get ⟨i, h⟩).source sp * 0.05 +
        calculate_diversity_penalty (ml.get ⟨i, h⟩)
          ((apply_personalization cp sp ml).take i) * 0.05) ∧
    ((ml.get ⟨i, h⟩).recommendation_score = none →
      (ml.get ⟨i, h⟩).recommendation_score.getD 0.5 = 0.5) := by
  refine ⟨apply_personalization_length cp sp ml, ?_, fun hn => by rw [hn]; rfl⟩
  rw [apply_personalization_getElem? cp sp ml i h]
  simp [score_article]

/-- Witness for C1 at a concrete single-article input. -/
theorem C1_scoring_engine_formula_witness :
    (apply_personalization [] [] [sampleTech]).length = [sampleTech].length ∧
    ((apply_personalization [] [] [sampleTech])[0]?.bind Article.final_score) =
      some (([sampleTech].get ⟨0, by norm_num⟩).recommendation_score.getD 0.5 * 0.6 +
        calculate_category_boost ([sampleTech].get ⟨0, by norm_num⟩).category [] * 0.2 +
        calculate_recency_boost ([sampleTech].get ⟨0, by norm_num⟩).publishedAt * 0.1 +
        calculate_source_boost ([sampleTech].get ⟨0, by norm_num⟩).source [] * 0.05 +
        calculate_diversity_penalty ([sampleTech].get ⟨0, by norm_num⟩)
          ((apply_personalization [] [] [sampleTech]).take 0) * 0.05) ∧
    (([sampleTech].get ⟨0, by norm_num⟩).recommendation_score = none →
      ([sampleTech].get ⟨0, by norm_num⟩).recommendation_score.getD 0.5 = 0.5) :=
  C1_scoring_engine_formula [] [] [sampleTech] 0 (by norm_num)

/-- Claim C2: the diversity penalty is `1.0` on an empty prefix and
otherwise `min (max 0.5 (1 - 0.1*c)) (max 0.5 (1 - 0.15*s))` where `c`
counts accepted results sharing the category and `s` those sharing the
source; it always lies in `[0.5, 1.0]`. -/
theorem C2_diversity_penalty_formula_and_bounds (article : Article)
    (existing : List Article) :
    (existing = [] → calculate_diversity_penalty article existing = 1) ∧
    (existing ≠ [] →
      calculate_diversity_penalty article existing =
        min (max 0.5 (1 - ((existing.filter
              (fun r => r.category = article.category)).length : ℚ) * 0.1))
            (max 0.5 (1 - ((existing.filter
              (fun r => r.source = article.source)).length : ℚ) * 0.15))) ∧
    (0.5 : ℚ) ≤ calculate_diversity_penalty article existing ∧
    calculate_diversity_penalty article existing ≤ 1 := by
  refine ⟨fun he => by simp [calculate_diversity_penalty, he],
    fun he => by simp only [calculate_diversity_penalty, if_neg he],
    diversity_penalty_ge_half article existing,
    diversity_penalty_le_one article existing⟩

/-- Witness for C2 at concrete inputs: the empty prefix and a
one-element prefix sharing the article's category and source. -/
theorem C2_diversity_penalty_formula_and_bounds_witness :
    calculate_diversity_penalty sampleTech [] = 1 ∧
    calculate_diversity_penalty sampleTech [sampleTech] =
      min (max 0.5 (1 - (([sampleTech].filter
            (fun r => r.category = sampleTech.category)).length : ℚ) * 0.1))
          (max 0.5 (1 - (([sampleTech].filter
            (fun r => r.source = sampleTech.source)).length : ℚ) * 0.15)) ∧
    (0.5 : ℚ) ≤ calculate_diversity_penalty sampleTech [sampleTech] :=
  ⟨(C2_diversity_penalty_formula_and_bounds sampleTech []).1 rfl,
   (C2_diversity_penalty_formula_and_bounds sampleTech [sampleTech]).2.1
     (by simp),
   (C2_diversity_penalty_formula_and_bounds sampleTech [sampleTech]).2.2.1⟩

/-- Counterexample to claim C8 as stated: the claim asserts
`RecencyBoost(age=30h) = 0.6`, but 30 hours exceeds the 24-hour band, so
the code returns `0.4`. -/
theorem C8_recency_boost_counterexample :
    calculate_recency_boost (some 30) = 0.4 ∧ (0.4 : ℚ) ≠ 0.6 := by
  constructor
  · norm_num [calculate_recency_boost]
  · norm_num

/-- Claim C8 amended: the recency boost is the step function of article age
(≤1h→1.0, ≤6h→0.8, ≤24h→0.6, ≤72h→0.4, else 0.2), an unparseable
timestamp gives 0.5, and in particular 30min→1.0, 30h→0.4, 100h→0.2. -/
theorem C8_recency_boost_step_function (h : ℚ) :
    calculate_recency_boost none = 0.5 ∧
    (h ≤ 1 → calculate_recency_boost (some h) = 1) ∧
    (1 < h → h ≤ 6 → calculate_recency_boost (some h) = 0.8) ∧
    (6 < h → h ≤ 24 → calculate_recency_boost (some h) = 0.6) ∧
    (24 < h → h ≤ 72 → calculate_recency_boost (some h) = 0.4) ∧
    (72 < h → calculate_recency_boost (some h) = 0.2) ∧
    calculate_recency_boost (some 0.5) = 1 ∧
    calculate_recency_boost (some 30) = 0.4 ∧
    calculate_recency_boost (some 100) = 0.2 := by
  refine ⟨rfl, ?_, ?_, ?_, ?_, ?_, ?_, ?_, ?_⟩
  · intro h1; simp [calculate_recency_boost, h1]
  · intro h1 h6
    simp only [calculate_recency_boost]
    rw [if_neg (by linarith), if_pos h6]
  · intro h6 h24
    simp only [calculate_recency_boost]
    rw [if_neg (by linarith), if_neg (by linarith), if_pos h24]
  · intro h24 h72
    simp only [calculate_recency_boost]
    rw [if_neg (by linarith), if_neg (by linarith), if_neg (by linarith),
      if_pos h72]
  · intro h72
    simp only [calculate_recency_boost]
    rw [if_neg (by linarith), if_neg (by linarith), if_neg (by linarith),
      if_neg (by linarith)]
  · norm_num [calculate_recency_boost]
  · norm_num [calculate_recency_boost]
  · norm_num [calculate_recency_boost]

/-- Witness for C8: each age band hit at a concrete age. -/
theorem C8_recency_boost_step_function_witness :
    calculate_recency_boost none = 0.5 ∧
    calculate_recency_boost (some 0.5) = 1 ∧
    calculate_recency_boost (some 3) = 0.8 ∧
    calculate_recency_boost (some 20) = 0.6 ∧
    calculate_recency_boost (some 50) = 0.4 ∧
    calculate_recency_boost (some 100) = 0.2 :=
  ⟨(C8_recency_boost_step_function 0).1,
   (C8_recency_boost_step_function 0.5).2.1 (by norm_num),
   (C8_recency_boost_step_function 3).2.2.1 (by norm_num) (by norm_num),
   (C8_recency_boost_step_function 20).2.2.2.1 (by norm_num) (by norm_num),
   (C8_recency_boost_step_function 50).2.2.2.2.1 (by norm_num) (by norm_num),
   (C8_recency_boost_step_function 100).2.2.2.2.2.1 (by norm_num)⟩

/-! ## The stable descending sort of the personalized ranker -/

lemma scoreLe_trans : ∀ (a b c : Article),
    scoreLe a b → scoreLe b c → scoreLe a c := by
  intro a b c hab hbc
  simp only [scoreLe, decide_eq_true_eq] at hab hbc ⊢
  exact le_trans hbc hab

lemma scoreLe_total : ∀ (a b : Article), scoreLe a b || scoreLe b a := by
  intro a b
  simp only [scoreLe, Bool.or_eq_true, decide_eq_true_eq]
  exact le_total _ _

/-- Elements with any fixed final score keep their relative order through
the sort: the characteristic property of a stable sort. -/
lemma mergeSort_scoreLe_filter (l : List Article) (q : ℚ) :
    (l.mergeSort scoreLe).filter (fun a => a.final_score.getD 0 = q) =
      l.filter (fun a => a.final_score.getD 0 = q) := by
  set p : Article → Bool := fun a => decide (a.final_score.getD 0 = q) with hp
  have hpw : (l.filter p).Pairwise (fun a b => scoreLe a b) := by
    refine List.pairwise_of_forall_mem_list ?_
    intro a ha b hb
    have ha' := (List.mem_filter.mp ha).2
    have hb' := (List.mem_filter.mp hb).2
    rw [hp] at ha' hb'
    simp only [decide_eq_true_eq] at ha' hb'
    simp only [scoreLe, decide_eq_true_eq, ha', hb']
    exact le_refl q
  have hsub2 : List.Sublist (l.filter p) (l.mergeSort scoreLe) :=
    List.sublist_mergeSort scoreLe_trans scoreLe_total hpw (List.filter_sublist l)
  have hself : (l.filter p).filter p = l.filter p :=
    List.filter_eq_self.mpr (fun x hx => (List.mem_filter.mp hx).2)
  have hsub3 : List.Sublist (l.filter p) ((l.mergeSort scoreLe).filter p) := by
    have := hsub2.filter p
    rwa [hself] at this
  have hperm : List.Perm ((l.mergeSort scoreLe).filter p) (l.filter p) :=
    (List.mergeSort_perm l scoreLe).filter p
  exact (hsub3.eq_of_length hperm.length_eq.symm).symm

/-- Claim C3: the personalized ranker is a single incremental pass in the
model's output order — the `i`-th output of the pass is the `i`-th model
candidate scored against exactly the prefix of already-processed results —
and only afterwards is the accepted list stable-sorted descending by
`final_score` and truncated to the top-k. -/
theorem C3_incremental_pass_then_stable_sort
    (articles ml : List Article) (top_k : ℕ)
    (category_counts : Except Unit (List (String × ℕ)))
    (sp : List (String × ℚ)) (hne : articles ≠ []) :
    let cp := get_user_category_preferences category_counts
    let scored := apply_personalization cp sp ml
    (∀ (i : ℕ) (hi : i < ml.length),
      scored[i]? = some (score_article cp sp (scored.take i)
        (ml.get ⟨i, hi⟩))) ∧
    get_personalized_recommendations articles top_k (.ok ml)
        category_counts sp =
      (scored.mergeSort scoreLe).take top_k ∧
    (scored.mergeSort scoreLe).Pairwise
      (fun a b => b.final_score.getD 0 ≤ a.final_score.getD 0) ∧
    List.Perm (scored.mergeSort scoreLe) scored ∧
    (∀ q : ℚ, (scored.mergeSort scoreLe).filter
        (fun a => a.final_score.getD 0 = q) =
      scored.filter (fun a => a.final_score.getD 0 = q)) := by
  refine ⟨fun i hi => apply_personalization_getElem? _ sp ml i hi, ?_, ?_, ?_, ?_⟩
  · simp [get_personalized_recommendations, hne]
  · have := List.sorted_mergeSort scoreLe_trans scoreLe_total
      (apply_personalization (get_user_category_preferences category_counts)
        sp ml)
    exact this.imp (fun hab => by simpa [scoreLe] using hab)
  · exact List.mergeSort_perm _ scoreLe
  · exact fun q => mergeSort_scoreLe_filter _ q

/-- Witness for C3 at a concrete two-article input. -/
theorem C3_incremental_pass_then_stable_sort_witness :
    let cp := get_user_category_preferences (.ok [])
    let scored := apply_personalization cp [] [sampleTech, sampleTechDup]
    (∀ (i : ℕ) (hi : i < [sampleTech, sampleTechDup].length),
      scored[i]? = some (score_article cp [] (scored.take i)
        ([sampleTech, sampleTechDup].get ⟨i, hi⟩))) ∧
    get_personalized_recommendations [sampleTech] 1 (.ok [sampleTech, sampleTechDup])
        (.ok []) [] =
      (scored.mergeSort scoreLe).take 1 ∧
    (scored.mergeSort scoreLe).Pairwise
      (fun a b => b.final_score.getD 0 ≤ a.final_score.getD 0) ∧
    List.Perm (scored.mergeSort scoreLe) scored ∧
    (∀ q : ℚ, (scored.mergeSort scoreLe).filter
        (fun a => a.final_score.getD 0 = q) =
      scored.filter (fun a => a.final_score.getD 0 = q)) :=
  C3_incremental_pass_then_stable_sort [sampleTech] [sampleTech, sampleTechDup]
    1 (.ok []) [] (by simp)

/-! ## Deduplication -/

lemma remove_duplicates_go_sublist (l : List Article) :
    ∀ seen, List.Sublist (remove_duplicates_go seen l) l := by
  induction l with
  | nil => intro seen; simp [remove_duplicates_go]
  | cons a rest ih =>
    intro seen
    rw [remove_duplicates_go]
    by_cases hmem : normalize_title a.title ∈ seen
    · simp only [if_pos hmem]
      exact (ih seen).cons a
    · simp only [if_neg hmem]
      exact (ih _).cons₂ a

lemma remove_duplicates_go_nodup (l : List Article) :
    ∀ seen,
      ((remove_duplicates_go seen l).map
        (fun b => normalize_title b.title)).Nodup ∧
      ∀ t ∈ (remove_duplicates_go seen l).map
        (fun b => normalize_title b.title), t ∉ seen := by
  induction l with
  | nil => intro seen; simp [remove_duplicates_go]
  | cons a rest ih =>
    intro seen
    rw [remove_duplicates_go]
    by_cases hmem : normalize_title a.title ∈ seen
    · simpa only [if_pos hmem] using ih seen
    · simp only [if_neg hmem, List.map_cons, List.nodup_cons]
      obtain ⟨ihn, ihs⟩ := ih (normalize_title a.title :: seen)
      refine ⟨⟨?_, ihn⟩, ?_⟩
      · intro hcontra
        exact ihs _ hcontra (List.mem_cons_self _ _)
      · intro t ht
        rcases List.mem_cons.mp ht with heq | ht'
        · exact heq ▸ hmem
        · exact fun hts => ihs t ht' (List.mem_cons_of_mem _ hts)

lemma remove_duplicates_go_covers (l : List Article) :
    ∀ seen a, a ∈ l → normalize_title a.title ∉ seen →
      ∃ b ∈ remove_duplicates_go seen l,
        normalize_title b.title = normalize_title a.title := by
  induction l with
  | nil => intro seen a ha _; simp at ha
  | cons hd rest ih =>
    intro seen a ha hns
    rw [remove_duplicates_go]
    by_cases hmem : normalize_title hd.title ∈ seen
    · simp only [if_pos hmem]
      rcases List.mem_cons.mp ha with heq | htl
      · exact absurd hmem (by rw [← heq]; simpa using hns)
      · exact ih seen a htl hns
    · simp only [if_neg hmem]
      rcases List.mem_cons.mp ha with heq | htl
      · exact ⟨hd, List.mem_cons_self _ _, by rw [heq]⟩
      · by_cases hsame : normalize_title a.title = normalize_title hd.title
        · exact ⟨hd, List.mem_cons_self _ _, hsame.symm⟩
        · obtain ⟨b, hb, hbt⟩ := ih (normalize_title hd.title :: seen) a htl
            (by simp [hsame, hns])
          exact ⟨b, List.mem_cons_of_mem _ hb, hbt⟩

lemma remove_duplicates_go_keeps_first (l1 : List Article) :
    ∀ seen (a : Article) (l2 : List Article),
      normalize_title a.title ∉ seen →
      (∀ b ∈ l1, normalize_title b.title ≠ normalize_title a.title) →
      a ∈ remove_duplicates_go seen (l1 ++ a :: l2) := by
  induction l1 with
  | nil =>
    intro seen a l2 hns _
    rw [List.nil_append, remove_duplicates_go]
    simp only [if_neg hns]
    exact List.mem_cons_self _ _
  | cons b l1 ih =>
    intro seen a l2 hns hfirst
    rw [List.cons_append, remove_duplicates_go]
    by_cases hmem : normalize_title b.title ∈ seen
    · simp only [if_pos hmem]
      exact ih seen a l2 hns (fun c hc => hfirst c (List.mem_cons_of_mem _ hc))
    · simp only [if_neg hmem]
      refine List.mem_cons_of_mem _ (ih _ a l2 ?_ ?_)
      · intro hin
        rcases List.mem_cons.mp hin with heq | hseen
        · exact hfirst b (List.mem_cons_self _ _) heq.symm
        · exact hns hseen
      · exact fun c hc => hfirst c (List.mem_cons_of_mem _ hc)

/-- Claim C6: the deduplicator returns a subsequence of its input with at
most one article per normalized (lower-cased, trimmed) title, every input
title is represented, the representative of each title is its first
occurrence in input order, and empty input gives empty output. -/
theorem C6_remove_duplicates_contract (articles : List Article) :
    remove_duplicates ([] : List Article) = [] ∧
    List.Sublist (remove_duplicates articles) articles ∧
    ((remove_duplicates articles).map
      (fun b => normalize_title b.title)).Nodup ∧
    (∀ a ∈ articles, ∃ b ∈ remove_duplicates articles,
      normalize_title b.title = normalize_title a.title) ∧
    (∀ (l1 : List Article) (a : Article) (l2 : List Article),
      articles = l1 ++ a :: l2 →
      (∀ b ∈ l1, normalize_title b.title ≠ normalize_title a.title) →
      a ∈ remove_duplicates articles) := by
  refine ⟨rfl, remove_duplicates_go_sublist articles [],
    (remove_duplicates_go_nodup articles []).1,
    fun a ha => remove_duplicates_go_covers articles [] a ha (by simp),
    fun l1 a l2 hsplit hfirst => ?_⟩
  rw [remove_duplicates, hsplit]
  exact remove_duplicates_go_keeps_first l1 [] a l2 (by simp) hfirst

/-- Witness for C6 on a two-article input whose normalized titles
coincide: the first occurrence is kept. -/
theorem C6_remove_duplicates_contract_witness :
    remove_duplicates ([] : List Article) = [] ∧
    List.Sublist (remove_duplicates [sampleTech, sampleTechDup])
      [sampleTech, sampleTechDup] ∧
    ((remove_duplicates [sampleTech, sampleTechDup]).map
      (fun b => normalize_title b.title)).Nodup ∧
    (∃ b ∈ remove_duplicates [sampleTech, sampleTechDup],
      normalize_title b.title = normalize_title sampleTechDup.title) ∧
    sampleTech ∈ remove_duplicates [sampleTech, sampleTechDup] :=
  ⟨(C6_remove_duplicates_contract [sampleTech, sampleTechDup]).1,
   (C6_remove_duplicates_contract [sampleTech, sampleTechDup]).2.1,
   (C6_remove_duplicates_contract [sampleTech, sampleTechDup]).2.2.1,
   (C6_remove_duplicates_contract [sampleTech, sampleTechDup]).2.2.2.1
     sampleTechDup (by simp),
   (C6_remove_duplicates_contract [sampleTech, sampleTechDup]).2.2.2.2
     [] sampleTech [sampleTechDup] rfl (by simp)⟩

/-! ## Category affinity normalization -/

lemma find?_of_nodup_keys (counts : List (String × ℕ)) (c : String) (k : ℕ)
    (hnd : (counts.map Prod.fst).Nodup) (hmem : (c, k) ∈ counts) :
    counts.find? (fun p => p.1 == c) = some (c, k) := by
  induction counts with
  | nil => simp at hmem
  | cons hd tl ih =>
    by_cases hc : hd.1 = c
    · rcases List.mem_cons.mp hmem with heq | htl
      · rw [List.find?_cons_of_pos _ (by simp [hc]), heq]
      · exfalso
        have hin : c ∈ tl.map Prod.fst := List.mem_map.mpr ⟨(c, k), htl, rfl⟩
        rw [List.map_cons, List.nodup_cons] at hnd
        exact hnd.1 (hc ▸ hin)
    · rw [List.find?_cons_of_neg _ (by simp [hc])]
      rw [List.map_cons, List.nodup_cons] at hnd
      refine ih hnd.2 ?_
      rcases List.mem_cons.mp hmem with heq | htl
      · exact absurd (congrArg Prod.fst heq).symm hc
      · exact htl

/-- Claim C7: for a non-empty category→count map with distinct keys, the
affinity assigned to each observed category with count `k` is
`min (k / total * 2) 1`, where `total` sums all counts. -/
theorem C7_category_affinity_normalization (counts : List (String × ℕ))
    (hne : counts ≠ []) (hnd : (counts.map Prod.fst).Nodup)
    (c : String) (k : ℕ) (hmem : (c, k) ∈ counts) :
    dictGet (get_user_category_preferences (.ok counts)) c 0.5 =
      min ((k : ℚ) / (((counts.map (·.2)).sum : ℕ) : ℚ) * 2) 1 := by
  have hprefs : get_user_category_preferences (.ok counts) =
      counts.map (fun p => (p.1,
        min ((p.2 : ℚ) / (((counts.map (·.2)).sum : ℕ) : ℚ) * 2) 1)) := by
    simp only [get_user_category_preferences]
    rw [if_neg hne]
  unfold dictGet
  rw [hprefs, List.find?_map,
    show ((fun p : String × ℚ => p.1 == c) ∘
        (fun p : String × ℕ => (p.1,
          min ((p.2 : ℚ) / (((counts.map (·.2)).sum : ℕ) : ℚ) * 2) 1))) =
      (fun p : String × ℕ => p.1 == c) from rfl,
    find?_of_nodup_keys counts c k hnd hmem]
  rfl

/-- Witness for C7: two categories with counts 3 and 1; the dominant one
gets `min (3/4*2) 1 = 1`. -/
theorem C7_category_affinity_normalization_witness :
    dictGet (get_user_category_preferences
        (.ok [("technology", 3), ("business", 1)])) "technology" 0.5 =
      min (((3 : ℕ) : ℚ) /
        ((([(("technology" : String), (3 : ℕ)),
            ("business", 1)].map (·.2)).sum : ℕ) : ℚ) * 2) 1 :=
  C7_category_affinity_normalization [("technology", 3), ("business", 1)]
    (by simp) (by simp) "technology" 3 (by simp)

/-! ## Fallback behaviour of the rankers -/

/-- Counterexample to claim C4 as stated: with a non-empty candidate pool,
a failing model collaborator makes the trending ranker return the empty
list, not the candidates truncated to top-k. -/
theorem C4_fallback_counterexample :
    get_trending_recommendations (.ok [sampleTech]) 5 (.error ()) = [] ∧
    [sampleTech] ≠ ([] : List Article) ∧
    List.take 5 [sampleTech] = [sampleTech] :=
  ⟨rfl, by simp, rfl⟩

/-- Claim C4 amended: only the personalized ranker (and the category
ranker when it delegates to it for a user) falls back to the input
candidates truncated to top-k when the model collaborator raises; a model
returning no scores flows through as an empty result; the trending ranker
and the user-less category ranker return the empty list on collaborator
failure. -/
theorem C4_fallback_policy :
    (∀ (articles : List Article) (top_k : ℕ)
        (cc : Except Unit (List (String × ℕ))) (sp : List (String × ℚ)),
      articles ≠ [] →
      get_personalized_recommendations articles top_k (.error ()) cc sp =
        articles.take top_k) ∧
    (∀ (articles : List Article) (top_k : ℕ)
        (cc : Except Unit (List (String × ℕ))) (sp : List (String × ℚ)),
      articles ≠ [] →
      (get_personalized_recommendations articles top_k (.error ()) cc
        sp).length = min top_k articles.length) ∧
    (∀ (articles : List Article) (top_k : ℕ)
        (cc : Except Unit (List (String × ℕ))) (sp : List (String × ℚ)),
      articles ≠ [] →
      get_personalized_recommendations articles top_k (.ok []) cc sp = []) ∧
    (∀ (recent : Except Unit (List Article)) (limit : ℕ),
      get_trending_recommendations recent limit (.error ()) = []) ∧
    (∀ (cat : Except Unit (List Article)) (limit : ℕ)
        (cc : Except Unit (List (String × ℕ))) (sp : List (String × ℚ)),
      get_category_recommendations cat limit none (.error ()) cc sp = []) ∧
    (∀ (category_articles : List Article) (limit : ℕ) (u : String)
        (cc : Except Unit (List (String × ℕ))) (sp : List (String × ℚ)),
      category_articles ≠ [] →
      get_category_recommendations (.ok category_articles) limit (some u)
        (.error ()) cc sp = category_articles.take limit) := by
  refine ⟨?_, ?_, ?_, ?_, ?_, ?_⟩
  · intro articles top_k cc sp hne
    simp [get_personalized_recommendations, hne]
  · intro articles top_k cc sp hne
    simp [get_personalized_recommendations, hne]
  · intro articles top_k cc sp hne
    simp [get_personalized_recommendations, hne, apply_personalization,
      apply_personalization_go]
  · intro recent limit
    cases recent with
    | error e => rfl
    | ok l =>
      by_cases hl : l = [] <;> simp [get_trending_recommendations, hl]
  · intro cat limit cc sp
    cases cat with
    | error e => rfl
    | ok l =>
      by_cases hl : l = [] <;> simp [get_category_recommendations, hl]
  · intro category_articles limit u cc sp hne
    simp [get_category_recommendations, hne,
      get_personalized_recommendations]

/-- Witness for C4's amended policy at concrete inputs. -/
theorem C4_fallback_policy_witness :
    get_personalized_recommendations [sampleTech] 3 (.error ()) (.ok []) [] =
      [sampleTech].take 3 ∧
    (get_personalized_recommendations [sampleTech] 3 (.error ()) (.ok [])
      []).length = min 3 [sampleTech].length ∧
    get_personalized_recommendations [sampleTech] 3 (.ok []) (.ok []) [] =
      [] ∧
    get_trending_recommendations (.ok [sampleTech]) 3 (.error ()) = [] ∧
    get_category_recommendations (.ok [sampleTech]) 3 none (.error ())
      (.ok []) [] = [] ∧
    get_category_recommendations (.ok [sampleTech]) 3 (some "u1")
      (.error ()) (.ok []) [] = [sampleTech].take 3 :=
  ⟨C4_fallback_policy.1 [sampleTech] 3 (.ok []) [] (by simp),
   C4_fallback_policy.2.1 [sampleTech] 3 (.ok []) [] (by simp),
   C4_fallback_policy.2.2.1 [sampleTech] 3 (.ok []) [] (by simp),
   C4_fallback_policy.2.2.2.1 (.ok [sampleTech]) 3,
   C4_fallback_policy.2.2.2.2.1 (.ok [sampleTech]) 3 (.ok []) [],
   C4_fallback_policy.2.2.2.2.2 [sampleTech] 3 "u1" (.ok []) [] (by simp)⟩

/-! ## Cold-start profile -/

/-- Counterexample to claim C5 as stated: when the interaction-history
collaborator errors, the profile builder returns the empty map, not the
cold-start default profile. -/
theorem C5_cold_start_counterexample :
    get_user_category_preferences (.error ()) = [] ∧
    ([] : List (String × ℚ)) ≠ default_preferences :=
  ⟨rfl, by simp [default_preferences]⟩

/-- Claim C5 amended: an interaction history with no category counts gives
the fixed cold-start default profile (technology 0.8, business 0.7,
general 0.6, health 0.5, science 0.5) and the cold-start CategoryBoost for
technology is base weight 1.0 × default affinity 0.8 = 0.8; a collaborator
error instead yields the empty profile, so every category boost falls back
to the neutral affinity 0.5 — in neither case does the ranking request
fail. -/
theorem C5_cold_start_policy :
    get_user_category_preferences (.ok []) = default_preferences ∧
    get_user_category_preferences (.error ()) = [] ∧
    dictGet category_weights "technology" 0.5 = 1 ∧
    dictGet default_preferences "technology" 0.5 = 0.8 ∧
    calculate_category_boost "technology" default_preferences = 0.8 ∧
    (∀ cat : String,
      calculate_category_boost cat (get_user_category_preferences
        (.error ())) = dictGet category_weights cat 0.5 * 0.5) := by
  refine ⟨rfl, rfl, rfl, rfl, ?_, fun cat => rfl⟩
  show dictGet category_weights "technology" 0.5 *
      dictGet default_preferences "technology" 0.5 = 0.8
  rw [show dictGet category_weights "technology" 0.5 = 1 from rfl,
    show dictGet default_preferences "technology" 0.5 = (0.8 : ℚ) from rfl]
  norm_num

/-! ## Nonnegativity and weight conservation -/

lemma dictGet_nonneg (d : List (String × ℚ)) (k : String) (dflt : ℚ)
    (hd : ∀ p ∈ d, 0 ≤ p.2) (h0 : 0 ≤ dflt) : 0 ≤ dictGet d k dflt := by
  unfold dictGet
  cases hfind : d.find? (fun p => p.1 == k) with
  | none => exact h0
  | some p => exact hd p (List.mem_of_find?_eq_some hfind)

lemma category_weights_nonneg : ∀ p ∈ category_weights, 0 ≤ p.2 := by
  intro p hp
  fin_cases hp <;> norm_num

lemma recency_boost_nonneg (x : Option ℚ) :
    0 ≤ calculate_recency_boost x := by
  cases x with
  | none => norm_num [calculate_recency_boost]
  | some h =>
    simp only [calculate_recency_boost]
    split_ifs <;> norm_num

/-- Counterexample to claim C9 as stated: an article whose model score is
negative (the model's dwell head is unbounded below) gets a negative
final score. -/
theorem C9_nonneg_counterexample :
    (score_article [] [] []
      { sampleTech with recommendation_score := some (-1) }).final_score.getD
      0 < 0 := by
  show (some (-1 : ℚ)).getD 0.5 * 0.6 +
      calculate_category_boost sampleTech.category [] * 0.2 +
      calculate_recency_boost sampleTech.publishedAt * 0.1 +
      calculate_source_boost sampleTech.source [] * 0.05 +
      calculate_diversity_penalty
        { sampleTech with recommendation_score := some (-1) } [] * 0.05 < 0
  rw [show calculate_category_boost sampleTech.category [] =
        1 * 0.5 from rfl,
    show calculate_recency_boost sampleTech.publishedAt = 0.5 from rfl,
    show calculate_source_boost sampleTech.source [] = 0.5 from rfl,
    show calculate_diversity_penalty
      { sampleTech with recommendation_score := some (-1) } [] = 1 from rfl]
  norm_num

/-- Claim C9 amended: for any article whose base score (0.5 when missing)
is nonnegative, and preference maps with nonnegative values, the final
score is nonnegative; and the five fixed weights sum to 1.0. -/
theorem C9_weight_conservation (cp sp : List (String × ℚ))
    (accepted : List Article) (article : Article)
    (hbase : 0 ≤ article.recommendation_score.getD 0.5)
    (hcp : ∀ p ∈ cp, 0 ≤ p.2) (hsp : ∀ p ∈ sp, 0 ≤ p.2) :
    0 ≤ (score_article cp sp accepted article).final_score.getD 0 ∧
    (0.6 + 0.2 + 0.1 + 0.05 + 0.05 : ℚ) = 1 := by
  constructor
  · have h1 : 0 ≤ calculate_category_boost article.category cp :=
      mul_nonneg
        (dictGet_nonneg _ _ _ category_weights_nonneg (by norm_num))
        (dictGet_nonneg _ _ _ hcp (by norm_num))
    have h2 := recency_boost_nonneg article.publishedAt
    have h3 : 0 ≤ calculate_source_boost article.source sp :=
      dictGet_nonneg _ _ _ hsp (by norm_num)
    have h4 : (0 : ℚ) ≤ calculate_diversity_penalty article accepted :=
      le_trans (by norm_num) (diversity_penalty_ge_half article accepted)
    show 0 ≤ article.recommendation_score.getD 0.5 * 0.6 +
      calculate_category_boost article.category cp * 0.2 +
      calculate_recency_boost article.publishedAt * 0.1 +
      calculate_source_boost article.source sp * 0.05 +
      calculate_diversity_penalty article accepted * 0.05
    have m1 := mul_nonneg hbase (show (0 : ℚ) ≤ 0.6 by norm_num)
    have m2 := mul_nonneg h1 (show (0 : ℚ) ≤ 0.2 by norm_num)
    have m3 := mul_nonneg h2 (show (0 : ℚ) ≤ 0.1 by norm_num)
    have m4 := mul_nonneg h3 (show (0 : ℚ) ≤ 0.05 by norm_num)
    have m5 := mul_nonneg h4 (show (0 : ℚ) ≤ 0.05 by norm_num)
    linarith
  · norm_num

/-- Witness for C9's amended statement at a concrete article. -/
theorem C9_weight_conservation_witness :
    0 ≤ (score_article [] [] [] sampleTech).final_score.getD 0 ∧
    (0.6 + 0.2 + 0.1 + 0.05 + 0.05 : ℚ) = 1 :=
  C9_weight_conservation [] [] [] sampleTech (by norm_num [sampleTech])
    (by simp) (by simp)

/-! ## Frame property of the personalization pass -/

/-- Claim C10: the personalization pass emits exactly one entry per input
recommendation and changes each article only by attaching `final_score`
and the full `personalization_factors` breakdown; every other field keeps
its input value. -/
theorem C10_personalization_frame (cp sp : List (String × ℚ))
    (ml : List Article) (i : ℕ) (hi : i < ml.length) :
    (apply_personalization cp sp ml).length = ml.length ∧
    ∃ a : Article, (apply_personalization cp sp ml)[i]? = some a ∧
      a.id = (ml.get ⟨i, hi⟩).id ∧
      a.title = (ml.get ⟨i, hi⟩).title ∧
      a.content = (ml.get ⟨i, hi⟩).content ∧
      a.category = (ml.get ⟨i, hi⟩).category ∧
      a.source = (ml.get ⟨i, hi⟩).source ∧
      a.publishedAt = (ml.get ⟨i, hi⟩).publishedAt ∧
      a.recommendation_score = (ml.get ⟨i, hi⟩).recommendation_score ∧
      a.trending_score = (ml.get ⟨i, hi⟩).trending_score ∧
      a.personalization_factors = some
        ⟨(ml.get ⟨i, hi⟩).recommendation_score.getD 0.5,
         calculate_category_boost (ml.get ⟨i, hi⟩).category cp,
         calculate_recency_boost (ml.get ⟨i, hi⟩).publishedAt,
         calculate_source_boost (ml.get ⟨i, hi⟩).source sp,
         calculate_diversity_penalty (ml.get ⟨i, hi⟩)
           ((apply_personalization cp sp ml).take i)⟩ ∧
      a.final_score = some
        ((ml.get ⟨i, hi⟩).recommendation_score.getD 0.5 * 0.6 +
         calculate_category_boost (ml.get ⟨i, hi⟩).category cp * 0.2 +
         calculate_recency_boost (ml.get ⟨i, hi⟩).publishedAt * 0.1 +
         calculate_source_boost (ml.get ⟨i, hi⟩).source sp * 0.05 +
         calculate_diversity_penalty (ml.get ⟨i, hi⟩)
           ((apply_personalization cp sp ml).take i) * 0.05) := by
  refine ⟨apply_personalization_length cp sp ml,
    score_article cp sp ((apply_personalization cp sp ml).take i)
      (ml.get ⟨i, hi⟩),
    apply_personalization_getElem? cp sp ml i hi,
    rfl, rfl, rfl, rfl, rfl, rfl, rfl, rfl, rfl, rfl⟩

/-- Witness for C10 at a concrete one-article input. -/
theorem C10_personalization_frame_witness :
    (apply_personalization [] [] [sampleTech]).length =
      [sampleTech].length ∧
    ∃ a : Article, (apply_personalization [] [] [sampleTech])[0]? = some a ∧
      a.id = ([sampleTech].get ⟨0, by norm_num⟩).id ∧
      a.title = ([sampleTech].get ⟨0, by norm_num⟩).title ∧
      a.content = ([sampleTech].get ⟨0, by norm_num⟩).content ∧
      a.category = ([sampleTech].get ⟨0, by norm_num⟩).category ∧
      a.source = ([sampleTech].get ⟨0, by norm_num⟩).source ∧
      a.publishedAt = ([sampleTech].get ⟨0, by norm_num⟩).publishedAt ∧
      a.recommendation_score =
        ([sampleTech].get ⟨0, by norm_num⟩).recommendation_score ∧
      a.trending_score = ([sampleTech].get ⟨0, by norm_num⟩).trending_score ∧
      a.personalization_factors = some
        ⟨([sampleTech].get ⟨0, by norm_num⟩).recommendation_score.getD 0.5,
         calculate_category_boost
           ([sampleTech].get ⟨0, by norm_num⟩).category [],
         calculate_recency_boost
           ([sampleTech].get ⟨0, by norm_num⟩).publishedAt,
         calculate_source_boost ([sampleTech].get ⟨0, by norm_num⟩).source [],
         calculate_diversity_penalty ([sampleTech].get ⟨0, by norm_num⟩)
           ((apply_personalization [] [] [sampleTech]).take 0)⟩ ∧
      a.final_score = some
        (([sampleTech].get ⟨0, by norm_num⟩).recommendation_score.getD 0.5 *
          0.6 +
         calculate_category_boost
           ([sampleTech].get ⟨0, by norm_num⟩).category [] * 0.2 +
         calculate_recency_boost
           ([sampleTech].get ⟨0, by norm_num⟩).publishedAt * 0.1 +
         calculate_source_boost
           ([sampleTech].get ⟨0, by norm_num⟩).source [] * 0.05 +
         calculate_diversity_penalty ([sampleTech].get ⟨0, by norm_num⟩)
           ((apply_personalization [] [] [sampleTech]).take 0) * 0.05) :=
  C10_personalization_frame [] [] [sampleTech] 0 (by norm_num)
